import Mathlib

/-!
Verification of the OpenGSNExample deployment scripts
(`scripts/paymaster.ts`, `scripts/collection.ts`).

The scripts are shallowly embedded: the JSON sidecar files written by
`writeFileSync(path, JSON.stringify(obj))` and read back by
`JSON.parse(readFileSync(path))` are modelled as a store mapping paths to
JSON values (the fs/JSON codec round-trips byte-exactly, so the store keeps
the parsed value); calls to the chain provider, sleeps and record writes are
recorded in an event trace; thrown errors become `Except String`.
-/

namespace GSN

/-- JSON values, as produced by `JSON.stringify` on the records the scripts
build (strings, numbers, arrays, objects). -/
inductive Json where
  | str : String → Json
  | num : Int → Json
  | arr : List Json → Json
  | obj : List (String × Json) → Json
  | null : Json

/-- JavaScript truthiness on a JSON value (`!x` in the scripts):
`undefined`/`null`, the empty string and `0` are falsy. -/
def Json.truthy : Json → Bool
  | .str s => s ≠ ""
  | .num n => n ≠ 0
  | .arr _ => true
  | .obj _ => true
  | .null => false

/-- Field lookup on a parsed JSON object (`obj.field`); `none` models
`undefined`. -/
def Json.field (j : Json) (k : String) : Option Json :=
  match j with
  | .obj kvs => kvs.lookup k
  | _ => none

/-- The on-disk sidecar files: a map from path to the parsed JSON document.
Later writes shadow earlier ones, modelling `writeFileSync` overwriting. -/
def Store := List (String × Json)

/-- `writeFileSync(path, JSON.stringify(v))`. -/
def Store.write (st : Store) (p : String) (v : Json) : Store := (p, v) :: st

/-- `existsSync(path)` + `JSON.parse(readFileSync(path))`: `none` when no
file exists at `p`. -/
def Store.read (st : Store) (p : String) : Option Json :=
  List.lookup p st

/-- The repository root, `join(__dirname, "..")` in both scripts (they live
in `scripts/`, so the sidecar files land in the project root). -/
def projectRoot : String := "/repo"

/-- `getPath` of `scripts/collection.ts`:
`join(__dirname, "..", "collection.SYMBOL.ADDRESS.NETWORK.json")`. -/
def collectionGetPath (network collectionSymbol address : String) : String :=
  projectRoot ++ "/collection." ++ collectionSymbol ++ "." ++ address ++ "."
    ++ network ++ ".json"

/-- `getPath` of `scripts/paymaster.ts`:
`join(__dirname, "..", "paymaster.NETWORK.json")` — note it depends on the
network name only. -/
def paymasterGetPath (network : String) : String :=
  projectRoot ++ "/paymaster." ++ network ++ ".json"

/-- Whether the character list `l` starts with `p`. -/
def charsStartWith : List Char → List Char → Bool
  | [], _ => true
  | _ :: _, [] => false
  | p :: ps, c :: cs => p == c && charsStartWith ps cs

/-- Whether the character list contains `pat` as a contiguous run. -/
def charsContain (pat : List Char) : List Char → Bool
  | [] => charsStartWith pat []
  | c :: cs => charsStartWith pat (c :: cs) || charsContain pat cs

/-- `message.includes(pattern)` on JavaScript strings. -/
def strIncludes (s pat : String) : Bool :=
  charsContain pat.data s.data

/-- Observable effects of the scripts: calls on the chain-interaction
provider, sidecar-file writes, backoff sleeps, and calls on the
verification collaborator (`hre.run("verify:verify", ...)`). -/
inductive Event where
  | getContractFactory (name : String)
  | factoryDeploy (factory : String) (args : List Json)
  | writeRecord (path : String) (v : Json)
  | enableCall (paymasterAddress target : String)
  | sleep (ms : Nat)
  | runVerify (address : String) (args : List Json)

/-- The JSON document `JSON.stringify` produces for the output of the
paymaster `deploy` function (written by the `deploy-paymaster` task). -/
def paymasterRecordJson (address hub fwd : String) : Json :=
  .obj [("address", .str address),
        ("constructorArguments", .arr [.str hub, .str fwd])]

/-- `deploy` of `scripts/paymaster.ts` (lines 13-44). `deployedAddress` is
the address the external factory assigns on this run. Returns the event
trace and either the thrown error or the result object. -/
def paymasterDeploy (deployedAddress hub fwd : String) :
    List Event × Except String (String × String × String) :=
  if hub = "" then ([], .error "Relay hub address is required")
  else if fwd = "" then ([], .error "GSN trusted forwarder address is required")
  else ([.getContractFactory "NovelPaymaster",
         .factoryDeploy "NovelPaymaster" [.str hub, .str fwd]],
        .ok (deployedAddress, hub, fwd))

/-- The `deploy-paymaster` task (lines 147-168, without the optional verify
branch): calls `deploy` with the per-network config addresses and writes the
result at `getPath(hre)`. -/
def deployPaymasterTask (st : Store) (network hub fwd deployedAddress : String) :
    List Event × Store × Except String Unit :=
  match paymasterDeploy deployedAddress hub fwd with
  | (evs, .error e) => (evs, st, .error e)
  | (evs, .ok (addr, h, f)) =>
      let path := paymasterGetPath network
      let r := paymasterRecordJson addr h f
      (evs ++ [.writeRecord path r], st.write path r, .ok ())

/-- `get` of `scripts/paymaster.ts` (lines 82-104): resolve the paymaster
address, from the argument when truthy, otherwise from the
`paymaster.NETWORK.json` sidecar file. -/
def paymasterGet (st : Store) (network : String) (address : Option String) :
    Except String Json :=
  let provided : Json := match address with
    | none => Json.null
    | some a => Json.str a
  let resolved : Except String Json :=
    if provided.truthy then .ok provided
    else
      match st.read (paymasterGetPath network) with
      | none =>
        .error "Could not find paymaster.json - try running hardhat deploy-paymaster"
      | some obj =>
        let f := (obj.field "address").getD Json.null
        if f.truthy then .ok f
        else
          .error "Could not read paymaster.json - try running hardhat deploy-paymaster"
  match resolved with
  | .error e => .error e
  | .ok a => if a.truthy then .ok a else .error "Paymaster address is required"

/-- `verify` of `scripts/paymaster.ts` (lines 115-145). `runOutcome` models
the external `hre.run("verify:verify", ...)` call: `none` succeeds,
`some msg` throws an error with message `msg`. A failure whose message
includes "Reason: Already Verified" is swallowed as success. -/
def paymasterVerify (address hub fwd : String) (runOutcome : Option String) :
    List Event × Except String Unit :=
  if hub = "" then ([], .error "Relay hub address is required")
  else if fwd = "" then ([], .error "GSN trusted forwarder address is required")
  else
    match runOutcome with
    | none => ([.runVerify address [.str hub, .str fwd]], .ok ())
    | some msg =>
      if strIncludes msg "Reason: Already Verified"
      then ([.runVerify address [.str hub, .str fwd]], .ok ())
      else ([.runVerify address [.str hub, .str fwd]], .error msg)

/-- The argument object of the collection `deploy` function; optional
fields model the optional TypeScript parameters (`none` = not supplied). -/
structure CollectionArgs where
  collectionName : String
  collectionSymbol : String
  collectionSupplyCap : Nat
  contractMetadataUri : String
  metadataProofHash : Option String
  paymaster : Option String
  forwarderAddress : Option String

/-- The `outputObj` the collection `deploy` builds and writes
(`scripts/collection.ts` lines 87-103): descriptive fields plus the ordered
constructor-argument tuple. -/
def collectionRecordJson (address name symbol : String) (cap : Nat)
    (hash uri fwd : String) : Json :=
  .obj [("address", .str address),
        ("collectionName", .str name),
        ("collectionSymbol", .str symbol),
        ("collectionSupplyCap", .num (cap : Int)),
        ("metadataProofHash", .str hash),
        ("contractMetadataUri", .str uri),
        ("forwarderAddress", .str fwd),
        ("constructorArguments",
          .arr [.str name, .str symbol, .num (cap : Int), .str hash,
                .str uri, .str fwd])]

/-- The retry loop around `paymaster.enableContract` exactly as written
(`scripts/collection.ts` lines 107-121): `for (let c = 1; c < 2; c++)`,
rethrow in the catch only when `c === 5`, otherwise sleep `c * 1000` ms and
continue. `outcome c` is the behaviour of the enable transaction on the
invocation with counter value `c` (`none` = confirms, `some msg` =
throws `msg`). -/
def enableLoopFrom (outcome : Nat → Option String) (paymasterAddr target : String) :
    Nat → List Event × Except String Unit
  | c =>
    if _h : c < 2 then
      match outcome c with
      | none =>
        let (evs, r) := enableLoopFrom outcome paymasterAddr target (c + 1)
        (.enableCall paymasterAddr target :: evs, r)
      | some msg =>
        if c = 5 then ([.enableCall paymasterAddr target], .error msg)
        else
          let (evs, r) := enableLoopFrom outcome paymasterAddr target (c + 1)
          (.enableCall paymasterAddr target :: .sleep (c * 1000) :: evs, r)
    else ([], .ok ())
termination_by c => 2 - c
decreasing_by all_goals omega

/-- The enable loop started at its initial counter value `c = 1`. -/
def enableLoop (outcome : Nat → Option String) (paymasterAddr target : String) :
    List Event × Except String Unit :=
  enableLoopFrom outcome paymasterAddr target 1

/-- `deploy` of `scripts/collection.ts` (lines 27-123). `cfgForwarder` is
the per-network `GSN_TRUSTED_FORWARDER_ADDRESS` from the config,
`deployedAddress` the address the external factory assigns, `enableOutcome`
the behaviour of the enable transaction per loop counter. Returns the
event trace, the resulting file store, and either the thrown error or
`(path, collection address)`. -/
def collectionDeploy (st : Store) (network cfgForwarder deployedAddress : String)
    (enableOutcome : Nat → Option String) (args : CollectionArgs) :
    List Event × Store × Except String (String × String) :=
  if args.collectionSymbol = "" then
    ([], st, .error "collectionSymbol is required")
  else if args.collectionSupplyCap = 0 then
    ([], st, .error "collectionSupplyCap is required")
  else if args.contractMetadataUri = "" then
    ([], st, .error "contractMetadataUri is required")
  else
    let pmRes : Except String String :=
      match args.paymaster with
      | some p => .ok p
      | none =>
        match paymasterGet st network none with
        | .error e => .error e
        | .ok v => .ok (match v with | .str s => s | _ => "")
    match pmRes with
    | .error e => ([], st, .error e)
    | .ok paymasterAddr =>
      let fwd := match args.forwarderAddress with
        | some f => if f = "" then cfgForwarder else f
        | none => cfgForwarder
      let hash := args.metadataProofHash.getD ""
      let ctorArgs : List Json :=
        [.str args.collectionName, .str args.collectionSymbol,
         .num (args.collectionSupplyCap : Int), .str hash,
         .str args.contractMetadataUri, .str fwd]
      let addr := deployedAddress
      let record := collectionRecordJson addr args.collectionName
        args.collectionSymbol args.collectionSupplyCap hash
        args.contractMetadataUri fwd
      let path := collectionGetPath network args.collectionSymbol addr
      let st1 := st.write path record
      let (levs, lres) := enableLoop enableOutcome paymasterAddr addr
      let evs := Event.getContractFactory "NovelCollection"
        :: Event.factoryDeploy "NovelCollection" ctorArgs
        :: Event.writeRecord path record :: levs
      match lres with
      | .error e => (evs, st1, .error e)
      | .ok _ => (evs, st1, .ok (path, addr))

/-- `verify` of `scripts/collection.ts` (lines 124-155): parameter checks in
source order, then the external `hre.run("verify:verify", ...)` call with NO
try/catch around it — every failure of the external call propagates. -/
def collectionVerify (address name symbol : String) (cap : Nat)
    (hash uri fwd : String) (runOutcome : Option String) :
    List Event × Except String Unit :=
  if address = "" then ([], .error "address is required")
  else if symbol = "" then ([], .error "collectionSymbol is required")
  else if cap = 0 then ([], .error "collectionSupplyCap is required")
  else if uri = "" then ([], .error "contractMetadataUri is required")
  else if fwd = "" then ([], .error "forwarderAddress is required")
  else if name = "" then ([], .error "collectionName is required")
  else if hash = "" then ([], .error "metadataProofHash is required")
  else
    let cargs : List Json :=
      [.str name, .str symbol, .num (cap : Int), .str hash, .str uri, .str fwd]
    match runOutcome with
    | none => ([.runVerify address cargs], .ok ())
    | some msg => ([.runVerify address cargs], .error msg)

/-- Count of enable-transaction invocations in an event trace. -/
def countEnableCalls (evs : List Event) : Nat :=
  evs.countP (fun e => match e with | .enableCall _ _ => true | _ => false)

/-- Backoff sleeps recorded in an event trace, in order. -/
def sleepsOf (evs : List Event) : List Nat :=
  evs.filterMap (fun e => match e with | .sleep ms => some ms | _ => none)

/-- Count of calls on the external verification collaborator in a trace. -/
def countRunVerify (evs : List Event) : Nat :=
  evs.countP (fun e => match e with | .runVerify _ _ => true | _ => false)

lemma eq_of_data_eq (a b : String) (h : a.data = b.data) : a = b := by
  cases a; cases b; exact congrArg String.mk h

lemma collectionGetPath_inj_symbol {n s1 s2 a : String} (h : s1 ≠ s2) :
    collectionGetPath n s1 a ≠ collectionGetPath n s2 a := by
  intro he
  apply h
  have hd := congrArg String.data he
  simp [collectionGetPath, projectRoot, String.data_append] at hd
  exact eq_of_data_eq _ _ hd

lemma collectionGetPath_inj_address {n s a1 a2 : String} (h : a1 ≠ a2) :
    collectionGetPath n s a1 ≠ collectionGetPath n s a2 := by
  intro he
  apply h
  have hd := congrArg String.data he
  simp [collectionGetPath, projectRoot, String.data_append] at hd
  exact eq_of_data_eq _ _ hd

lemma collectionGetPath_inj_network {n1 n2 s a : String} (h : n1 ≠ n2) :
    collectionGetPath n1 s a ≠ collectionGetPath n2 s a := by
  intro he
  apply h
  have hd := congrArg String.data he
  simp [collectionGetPath, projectRoot, String.data_append] at hd
  exact eq_of_data_eq _ _ hd

lemma paymasterGetPath_inj_network {n1 n2 : String} (h : n1 ≠ n2) :
    paymasterGetPath n1 ≠ paymasterGetPath n2 := by
  intro he
  apply h
  have hd := congrArg String.data he
  simp [paymasterGetPath, projectRoot, String.data_append] at hd
  exact eq_of_data_eq _ _ hd

lemma collectionGetPath_ne_paymasterGetPath (n s a n' : String) :
    collectionGetPath n s a ≠ paymasterGetPath n' := by
  intro he
  have hd := congrArg String.data he
  simp [collectionGetPath, paymasterGetPath, projectRoot, String.data_append] at hd

lemma store_read_write_self (st : Store) (p : String) (v : Json) :
    (st.write p v).read p = some v := by
  simp [Store.read, Store.write, List.lookup]

lemma store_read_write_other (st : Store) (p q : String) (v : Json) (h : q ≠ p) :
    (st.write p v).read q = st.read q := by
  have hb : (q == p) = false := beq_eq_false_iff_ne.mpr h
  simp [Store.read, Store.write, List.lookup, hb]

/-- As written, the enable retry loop always exits normally: the loop body
runs only for counter value 1, and the rethrow guard `c === 5` never
matches, so even a failing enable transaction produces a normal return. -/
lemma enableLoop_ok (o : Nat → Option String) (p t : String) :
    (enableLoop o p t).2 = .ok () := by
  cases ho : o 1 <;> simp [enableLoop, enableLoopFrom, ho]

/-- The enable retry loop performs no sidecar-file writes. -/
lemma enableLoop_no_writes (o : Nat → Option String) (p t : String) :
    ((enableLoop o p t).1.countP
      (fun e => match e with | .writeRecord _ _ => true | _ => false)) = 0 := by
  cases ho : o 1 <;> simp [enableLoop, enableLoopFrom, ho, List.countP, List.countP.go]

/-- Full evaluation of a collection `deploy` run whose required parameters
are present (paymaster handle and forwarder supplied explicitly). -/
lemma collectionDeploy_spec (st : Store) (network cf da : String)
    (o : Nat → Option String) (name s : String) (c : Nat) (u : String)
    (h : Option String) (pm f : String)
    (hs : s ≠ "") (hc : c ≠ 0) (hu : u ≠ "") (hf : f ≠ "") :
    collectionDeploy st network cf da o ⟨name, s, c, u, h, some pm, some f⟩
      = (Event.getContractFactory "NovelCollection"
          :: Event.factoryDeploy "NovelCollection"
              [.str name, .str s, .num (c : Int), .str (h.getD ""), .str u, .str f]
          :: Event.writeRecord (collectionGetPath network s da)
              (collectionRecordJson da name s c (h.getD "") u f)
          :: (enableLoop o pm da).1,
         st.write (collectionGetPath network s da)
          (collectionRecordJson da name s c (h.getD "") u f),
         .ok (collectionGetPath network s da, da)) := by
  have hE := enableLoop_ok o pm da
  rcases hEq : enableLoop o pm da with ⟨levs, lres⟩
  rw [hEq] at hE
  simp at hE
  subst hE
  simp [collectionDeploy, hs, hc, hu, hf, hEq]

/-- Full evaluation of a `deploy-paymaster` task run whose per-network
config addresses are present. -/
lemma deployPaymasterTask_spec (st : Store) (n hub fwd da : String)
    (hh : hub ≠ "") (hf : fwd ≠ "") :
    deployPaymasterTask st n hub fwd da
      = ([.getContractFactory "NovelPaymaster",
          .factoryDeploy "NovelPaymaster" [.str hub, .str fwd],
          .writeRecord (paymasterGetPath n) (paymasterRecordJson da hub fwd)],
         st.write (paymasterGetPath n) (paymasterRecordJson da hub fwd),
         .ok ()) := by
  simp [deployPaymasterTask, paymasterDeploy, hh, hf]

/-- Claim C1. The claim states that with an attempt budget of 5, an
always-failing enable action is invoked exactly 5 times and the 5th error
propagates to the caller of deploy. The code's loop (`for (let c = 1;
c < 2; c++)` with rethrow guarded by `c === 5`) instead invokes the action
exactly once, swallows its error, sleeps 1000 ms, and deploy returns
normally: this theorem evaluates the embedded loop and the full collection
deploy at an always-failing enable action and exhibits that behaviour. -/
theorem enable_retry_exhaustion_bug :
    enableLoop (fun _ => some "network timeout") "0xPAY" "0xC01"
      = ([.enableCall "0xPAY" "0xC01", .sleep 1000], .ok ())
    ∧ countEnableCalls (enableLoop (fun _ => some "network timeout") "0xPAY" "0xC01").1 = 1
    ∧ (collectionDeploy [] "mumbai" "0xFWD" "0xC01" (fun _ => some "network timeout")
        ⟨"Name", "SYM", 1000, "uri", none, some "0xPAY", none⟩).2.2
      = .ok (collectionGetPath "mumbai" "SYM" "0xC01", "0xC01") := by
  refine ⟨?_, ?_, ?_⟩
  · simp [enableLoop, enableLoopFrom]
  · simp [enableLoop, enableLoopFrom, countEnableCalls, List.countP, List.countP.go]
  · simp [collectionDeploy, enableLoop, enableLoopFrom]

/-- Claim C7. The claim states that failures on non-final attempts sleep
`c * 1000` ms, giving 1000, 2000, 3000, 4000 ms across attempts 1-4. In the
code only attempt 1 ever runs: with an action failing on attempts 1-4 the
loop makes exactly one invocation, sleeps once for 1000 ms, and exits; the
2000-4000 ms sleeps never occur. -/
theorem enable_backoff_schedule_bug :
    enableLoop (fun c => if c ≤ 4 then some "transient failure" else none) "0xPAY" "0xC02"
      = ([.enableCall "0xPAY" "0xC02", .sleep 1000], .ok ())
    ∧ sleepsOf (enableLoop (fun c => if c ≤ 4 then some "transient failure" else none)
        "0xPAY" "0xC02").1 = [1000]
    ∧ countEnableCalls (enableLoop (fun c => if c ≤ 4 then some "transient failure" else none)
        "0xPAY" "0xC02").1 = 1 := by
  refine ⟨?_, ?_, ?_⟩
  · simp [enableLoop, enableLoopFrom]
  · simp [enableLoop, enableLoopFrom, sleepsOf]
  · simp [enableLoop, enableLoopFrom, countEnableCalls, List.countP, List.countP.go]

/-- Claim C2, counterexample, in two parts. Paymaster: two successful
deployments on the same network with different resulting addresses are
written to the SAME storage key `paymaster.mumbai.json`; after the second,
reading that key returns the second record, which differs from the first —
the new creation overwrote the previously written record. Collection: the
dot-separated path template also collides for deployments that differ in
MORE than one component — symbol "X.Y" with address "Z" and symbol "X"
with address "Y.Z" derive the identical key `collection.X.Y.Z.mumbai.json`,
and the second such deployment likewise overwrites the first record. -/
theorem paymaster_redeploy_overwrites_record :
    (deployPaymasterTask [] "mumbai" "0xHUB" "0xFWD" "0xAAA").2.1.read (paymasterGetPath "mumbai")
      = some (paymasterRecordJson "0xAAA" "0xHUB" "0xFWD")
    ∧ (deployPaymasterTask ((deployPaymasterTask [] "mumbai" "0xHUB" "0xFWD" "0xAAA").2.1)
        "mumbai" "0xHUB" "0xFWD" "0xBBB").2.1.read (paymasterGetPath "mumbai")
      = some (paymasterRecordJson "0xBBB" "0xHUB" "0xFWD")
    ∧ paymasterRecordJson "0xBBB" "0xHUB" "0xFWD" ≠ paymasterRecordJson "0xAAA" "0xHUB" "0xFWD"
    ∧ (("X.Y" : String) ≠ "X" ∧ ("Z" : String) ≠ "Y.Z")
    ∧ collectionGetPath "mumbai" "X.Y" "Z" = collectionGetPath "mumbai" "X" "Y.Z"
    ∧ ((collectionDeploy [] "mumbai" "0xF" "Z" (fun _ => none)
          ⟨"N1", "X.Y", 100, "u1", none, some "0xP", some "0xF"⟩).2.1.read
        (collectionGetPath "mumbai" "X.Y" "Z")
      = some (collectionRecordJson "Z" "N1" "X.Y" 100 "" "u1" "0xF"))
    ∧ ((collectionDeploy
          ((collectionDeploy [] "mumbai" "0xF" "Z" (fun _ => none)
            ⟨"N1", "X.Y", 100, "u1", none, some "0xP", some "0xF"⟩).2.1)
          "mumbai" "0xF" "Y.Z" (fun _ => none)
          ⟨"N2", "X", 200, "u2", none, some "0xP", some "0xF"⟩).2.1.read
        (collectionGetPath "mumbai" "X.Y" "Z")
      = some (collectionRecordJson "Y.Z" "N2" "X" 200 "" "u2" "0xF"))
    ∧ collectionRecordJson "Y.Z" "N2" "X" 200 "" "u2" "0xF"
      ≠ collectionRecordJson "Z" "N1" "X.Y" 100 "" "u1" "0xF" := by
  refine ⟨?_, ?_, ?_, ⟨by decide, by decide⟩, by decide, ?_, ?_, ?_⟩
  · simp [deployPaymasterTask, paymasterDeploy, Store.read, Store.write, List.lookup]
  · simp [deployPaymasterTask, paymasterDeploy, Store.read, Store.write, List.lookup]
  · simp [paymasterRecordJson]
  · simp [collectionDeploy, enableLoop, enableLoopFrom, Store.read, Store.write, List.lookup,
      collectionGetPath, projectRoot]
  · simp [collectionDeploy, enableLoop, enableLoopFrom, Store.read, Store.write, List.lookup,
      collectionGetPath, projectRoot]
  · simp [collectionRecordJson]

/-- Claim C2, amended. Collection deployments that differ in exactly one of
(identifier, resulting address, network) are written at distinct keys and
are append-only: after two such deployments both records are readable at
their own keys, the first unharmed by the second. Collection keys never
collide with paymaster keys. (Paymaster records, by contrast, are keyed by
network alone — see the counterexample.) -/
theorem deployment_records_append_only
    (st : Store) (net1 net2 cf1 cf2 da1 da2 pm1 pm2 f1 f2 : String)
    (o1 o2 : Nat → Option String)
    (n1 s1 u1 n2 s2 u2 : String) (c1 c2 : Nat) (h1 h2 : Option String)
    (hs1 : s1 ≠ "") (hc1 : c1 ≠ 0) (hu1 : u1 ≠ "")
    (hs2 : s2 ≠ "") (hc2 : c2 ≠ 0) (hu2 : u2 ≠ "")
    (hf1 : f1 ≠ "") (hf2 : f2 ≠ "")
    (hdiff : (s1 ≠ s2 ∧ da1 = da2 ∧ net1 = net2)
           ∨ (da1 ≠ da2 ∧ s1 = s2 ∧ net1 = net2)
           ∨ (net1 ≠ net2 ∧ s1 = s2 ∧ da1 = da2)) :
    collectionGetPath net1 s1 da1 ≠ collectionGetPath net2 s2 da2
    ∧ ((collectionDeploy
          ((collectionDeploy st net1 cf1 da1 o1 ⟨n1, s1, c1, u1, h1, some pm1, some f1⟩).2.1)
          net2 cf2 da2 o2 ⟨n2, s2, c2, u2, h2, some pm2, some f2⟩).2.1.read
        (collectionGetPath net1 s1 da1)
      = some (collectionRecordJson da1 n1 s1 c1 (h1.getD "") u1 f1))
    ∧ ((collectionDeploy
          ((collectionDeploy st net1 cf1 da1 o1 ⟨n1, s1, c1, u1, h1, some pm1, some f1⟩).2.1)
          net2 cf2 da2 o2 ⟨n2, s2, c2, u2, h2, some pm2, some f2⟩).2.1.read
        (collectionGetPath net2 s2 da2)
      = some (collectionRecordJson da2 n2 s2 c2 (h2.getD "") u2 f2))
    ∧ (∀ n s a n', collectionGetPath n s a ≠ paymasterGetPath n') := by
  have hne : collectionGetPath net1 s1 da1 ≠ collectionGetPath net2 s2 da2 := by
    rcases hdiff with ⟨hd, ha, hn⟩ | ⟨hd, hs, hn⟩ | ⟨hd, hs, ha⟩
    · subst ha; subst hn; exact collectionGetPath_inj_symbol hd
    · subst hs; subst hn; exact collectionGetPath_inj_address hd
    · subst hs; subst ha; exact collectionGetPath_inj_network hd
  rw [collectionDeploy_spec st net1 cf1 da1 o1 n1 s1 c1 u1 h1 pm1 f1 hs1 hc1 hu1 hf1]
  rw [collectionDeploy_spec _ net2 cf2 da2 o2 n2 s2 c2 u2 h2 pm2 f2 hs2 hc2 hu2 hf2]
  refine ⟨hne, ?_, ?_, collectionGetPath_ne_paymasterGetPath⟩
  · rw [store_read_write_other _ _ _ _ hne, store_read_write_self]
  · rw [store_read_write_self]

/-- Witness for the amended claim C2, at two deployments with different
symbols on the same network. -/
theorem deployment_records_append_only_witness :
    collectionGetPath "mumbai" "SYM" "0xC01" ≠ collectionGetPath "mumbai" "TOK" "0xC01"
    ∧ ((collectionDeploy
          ((collectionDeploy [] "mumbai" "0xF" "0xC01" (fun _ => none)
            ⟨"N1", "SYM", 100, "u1", none, some "0xP", some "0xF"⟩).2.1)
          "mumbai" "0xF" "0xC01" (fun _ => none)
          ⟨"N2", "TOK", 200, "u2", none, some "0xP", some "0xF"⟩).2.1.read
        (collectionGetPath "mumbai" "SYM" "0xC01")
      = some (collectionRecordJson "0xC01" "N1" "SYM" 100 "" "u1" "0xF"))
    ∧ ((collectionDeploy
          ((collectionDeploy [] "mumbai" "0xF" "0xC01" (fun _ => none)
            ⟨"N1", "SYM", 100, "u1", none, some "0xP", some "0xF"⟩).2.1)
          "mumbai" "0xF" "0xC01" (fun _ => none)
          ⟨"N2", "TOK", 200, "u2", none, some "0xP", some "0xF"⟩).2.1.read
        (collectionGetPath "mumbai" "TOK" "0xC01")
      = some (collectionRecordJson "0xC01" "N2" "TOK" 200 "" "u2" "0xF"))
    ∧ (∀ n s a n', collectionGetPath n s a ≠ paymasterGetPath n') := by
  have h := deployment_records_append_only ([] : Store) "mumbai" "mumbai" "0xF" "0xF"
    "0xC01" "0xC01" "0xP" "0xP" "0xF" "0xF" (fun _ => none) (fun _ => none)
    "N1" "SYM" "u1" "N2" "TOK" "u2" 100 200 none none
    (by decide) (by decide) (by decide) (by decide) (by decide) (by decide)
    (by decide) (by decide) (Or.inl ⟨by decide, rfl, rfl⟩)
  exact h

/-- Claim C3, counterexample. The paymaster key derivation is NOT sensitive
to the resulting address: two paymaster deployments with distinct addresses
on the same network derive the identical storage key
`paymaster.mumbai.json`, as both write events show. -/
theorem paymaster_key_ignores_address :
    ("0xA11" : String) ≠ "0xB22"
    ∧ (deployPaymasterTask [] "mumbai" "0xHUB" "0xFWD" "0xA11").1
      = [.getContractFactory "NovelPaymaster",
         .factoryDeploy "NovelPaymaster" [.str "0xHUB", .str "0xFWD"],
         .writeRecord (paymasterGetPath "mumbai") (paymasterRecordJson "0xA11" "0xHUB" "0xFWD")]
    ∧ (deployPaymasterTask [] "mumbai" "0xHUB" "0xFWD" "0xB22").1
      = [.getContractFactory "NovelPaymaster",
         .factoryDeploy "NovelPaymaster" [.str "0xHUB", .str "0xFWD"],
         .writeRecord (paymasterGetPath "mumbai") (paymasterRecordJson "0xB22" "0xHUB" "0xFWD")] := by
  refine ⟨by decide, ?_, ?_⟩
  · simp [deployPaymasterTask, paymasterDeploy]
  · simp [deployPaymasterTask, paymasterDeploy]

/-- Claim C3, amended. Both key derivations are pure deterministic
functions. The collection key changes whenever exactly one of (identifier,
address, network) changes, and collection keys never coincide with
paymaster keys (the kind tag separates them). The paymaster key is a
function of the network alone: it changes with the network but is
insensitive to identifier and address (see the counterexample). -/
theorem key_derivation_pure_and_sensitive :
    (∀ n s a, collectionGetPath n s a = collectionGetPath n s a)
    ∧ (∀ n, paymasterGetPath n = paymasterGetPath n)
    ∧ (∀ n s1 s2 a, s1 ≠ s2 → collectionGetPath n s1 a ≠ collectionGetPath n s2 a)
    ∧ (∀ n s a1 a2, a1 ≠ a2 → collectionGetPath n s a1 ≠ collectionGetPath n s a2)
    ∧ (∀ n1 n2 s a, n1 ≠ n2 → collectionGetPath n1 s a ≠ collectionGetPath n2 s a)
    ∧ (∀ n1 n2, n1 ≠ n2 → paymasterGetPath n1 ≠ paymasterGetPath n2)
    ∧ (∀ n s a n', collectionGetPath n s a ≠ paymasterGetPath n') :=
  ⟨fun _ _ _ => rfl, fun _ => rfl,
   fun _ _ _ _ h => collectionGetPath_inj_symbol h,
   fun _ _ _ _ h => collectionGetPath_inj_address h,
   fun _ _ _ _ h => collectionGetPath_inj_network h,
   fun _ _ h => paymasterGetPath_inj_network h,
   collectionGetPath_ne_paymasterGetPath⟩

/-- Witness for the amended claim C3 at concrete symbols, addresses and
networks. -/
theorem key_derivation_pure_and_sensitive_witness :
    collectionGetPath "mumbai" "SYM" "0xA" ≠ collectionGetPath "mumbai" "TOK" "0xA"
    ∧ collectionGetPath "mumbai" "SYM" "0xA" ≠ collectionGetPath "mumbai" "SYM" "0xB"
    ∧ collectionGetPath "mumbai" "SYM" "0xA" ≠ collectionGetPath "rinkeby" "SYM" "0xA"
    ∧ paymasterGetPath "mumbai" ≠ paymasterGetPath "rinkeby"
    ∧ collectionGetPath "mumbai" "SYM" "0xA" ≠ paymasterGetPath "mumbai" :=
  ⟨key_derivation_pure_and_sensitive.2.2.1 "mumbai" "SYM" "TOK" "0xA" (by decide),
   key_derivation_pure_and_sensitive.2.2.2.1 "mumbai" "SYM" "0xA" "0xB" (by decide),
   key_derivation_pure_and_sensitive.2.2.2.2.1 "mumbai" "rinkeby" "SYM" "0xA" (by decide),
   key_derivation_pure_and_sensitive.2.2.2.2.2.1 "mumbai" "rinkeby" (by decide),
   key_derivation_pure_and_sensitive.2.2.2.2.2.2 "mumbai" "SYM" "0xA" "mumbai"⟩

/-- Claim C4. Round-trip law: immediately after a successful deployment
records its result, loading the record at the derived key returns a value
deep-equal to the recorded one — both the address and the ordered
constructor-argument tuple are unchanged by the write/read round trip.
Holds for the collection deploy and for the deploy-paymaster task. -/
theorem record_load_roundtrip
    (st : Store) (network cf da : String) (o : Nat → Option String)
    (name s : String) (c : Nat) (u : String) (h : Option String) (pm f : String)
    (hs : s ≠ "") (hc : c ≠ 0) (hu : u ≠ "") (hf : f ≠ "")
    (hub fwd pda : String) (hh : hub ≠ "") (hfw : fwd ≠ "") :
    ((collectionDeploy st network cf da o ⟨name, s, c, u, h, some pm, some f⟩).2.1.read
        (collectionGetPath network s da)
      = some (collectionRecordJson da name s c (h.getD "") u f))
    ∧ (collectionRecordJson da name s c (h.getD "") u f).field "address" = some (.str da)
    ∧ (collectionRecordJson da name s c (h.getD "") u f).field "constructorArguments"
      = some (.arr [.str name, .str s, .num (c : Int), .str (h.getD ""), .str u, .str f])
    ∧ ((deployPaymasterTask st network hub fwd pda).2.1.read (paymasterGetPath network)
      = some (paymasterRecordJson pda hub fwd))
    ∧ (paymasterRecordJson pda hub fwd).field "address" = some (.str pda)
    ∧ (paymasterRecordJson pda hub fwd).field "constructorArguments"
      = some (.arr [.str hub, .str fwd]) := by
  refine ⟨?_, ?_, ?_, ?_, ?_, ?_⟩
  · rw [collectionDeploy_spec st network cf da o name s c u h pm f hs hc hu hf]
    exact store_read_write_self _ _ _
  · simp [collectionRecordJson, Json.field, List.lookup]
  · simp [collectionRecordJson, Json.field, List.lookup]
  · rw [deployPaymasterTask_spec st network hub fwd pda hh hfw]
    exact store_read_write_self _ _ _
  · simp [paymasterRecordJson, Json.field, List.lookup]
  · simp [paymasterRecordJson, Json.field, List.lookup]

/-- Witness for claim C4 at a concrete deployment of each kind. -/
theorem record_load_roundtrip_witness :
    ((collectionDeploy [] "mumbai" "0xF" "0xC01" (fun _ => none)
        ⟨"Name", "SYM", 1000, "uri", some "hash", some "0xP", some "0xFWD"⟩).2.1.read
        (collectionGetPath "mumbai" "SYM" "0xC01")
      = some (collectionRecordJson "0xC01" "Name" "SYM" 1000 "hash" "uri" "0xFWD"))
    ∧ (collectionRecordJson "0xC01" "Name" "SYM" 1000 "hash" "uri" "0xFWD").field "address"
      = some (.str "0xC01")
    ∧ (collectionRecordJson "0xC01" "Name" "SYM" 1000 "hash" "uri" "0xFWD").field
        "constructorArguments"
      = some (.arr [.str "Name", .str "SYM", .num 1000, .str "hash", .str "uri", .str "0xFWD"])
    ∧ ((deployPaymasterTask [] "mumbai" "0xHUB" "0xFWD" "0xPAY").2.1.read
        (paymasterGetPath "mumbai")
      = some (paymasterRecordJson "0xPAY" "0xHUB" "0xFWD"))
    ∧ (paymasterRecordJson "0xPAY" "0xHUB" "0xFWD").field "address" = some (.str "0xPAY")
    ∧ (paymasterRecordJson "0xPAY" "0xHUB" "0xFWD").field "constructorArguments"
      = some (.arr [.str "0xHUB", .str "0xFWD"]) :=
  record_load_roundtrip [] "mumbai" "0xF" "0xC01" (fun _ => none)
    "Name" "SYM" 1000 "uri" (some "hash") "0xP" "0xFWD"
    (by decide) (by decide) (by decide) (by decide)
    "0xHUB" "0xFWD" "0xPAY" (by decide) (by decide)

/-- Claim C5. Loading the paymaster record (`get` with no address argument)
fails in exactly two distinguished ways: a missing file yields the NotFound
error instructing to run deploy-paymaster, a file whose parsed content
lacks a truthy (non-empty) address field yields the corrupt-record error,
and otherwise it succeeds with the stored address — so no other error
branch is reachable on this path. -/
theorem paymaster_get_error_modes (st : Store) (network : String) :
    (st.read (paymasterGetPath network) = none →
      paymasterGet st network none
        = .error "Could not find paymaster.json - try running hardhat deploy-paymaster")
    ∧ (∀ obj, st.read (paymasterGetPath network) = some obj →
        ((obj.field "address").getD Json.null).truthy = false →
        paymasterGet st network none
          = .error "Could not read paymaster.json - try running hardhat deploy-paymaster")
    ∧ (∀ obj, st.read (paymasterGetPath network) = some obj →
        ((obj.field "address").getD Json.null).truthy = true →
        paymasterGet st network none = .ok ((obj.field "address").getD Json.null)) := by
  have hnull : Json.null.truthy = false := rfl
  refine ⟨?_, ?_, ?_⟩
  · intro hr
    simp [paymasterGet, hnull, hr]
  · intro obj hr ht
    simp [paymasterGet, hnull, hr, ht]
  · intro obj hr ht
    simp [paymasterGet, hnull, hr, ht]

/-- Witness for claim C5: an empty store, a record with an empty address,
and a well-formed record exercise the three branches. -/
theorem paymaster_get_error_modes_witness :
    paymasterGet [] "mumbai" none
      = .error "Could not find paymaster.json - try running hardhat deploy-paymaster"
    ∧ paymasterGet [(paymasterGetPath "mumbai", Json.obj [("address", Json.str "")])]
        "mumbai" none
      = .error "Could not read paymaster.json - try running hardhat deploy-paymaster"
    ∧ paymasterGet [(paymasterGetPath "mumbai", Json.obj [("address", Json.str "0xPAY")])]
        "mumbai" none = .ok (Json.str "0xPAY") :=
  ⟨(paymaster_get_error_modes [] "mumbai").1 rfl,
   (paymaster_get_error_modes _ "mumbai").2.1 (Json.obj [("address", Json.str "")])
     (by simp [Store.read, List.lookup]) rfl,
   (paymaster_get_error_modes _ "mumbai").2.2 (Json.obj [("address", Json.str "0xPAY")])
     (by simp [Store.read, List.lookup]) rfl⟩

/-- Claim C6, counterexample. The collection `verify` has no try/catch
around the external verification call: a failure whose message reports the
resource as already verified propagates to the caller instead of being
normalized to success, unlike the paymaster `verify` on the same message. -/
theorem collection_verify_propagates_already_verified :
    collectionVerify "0xC01" "Name" "SYM" 1000 "hash" "uri" "0xFWD"
        (some "Fail - Reason: Already Verified")
      = ([.runVerify "0xC01"
            [.str "Name", .str "SYM", .num 1000, .str "hash", .str "uri", .str "0xFWD"]],
         .error "Fail - Reason: Already Verified")
    ∧ strIncludes "Fail - Reason: Already Verified" "Reason: Already Verified" = true
    ∧ paymasterVerify "0xPAY" "0xHUB" "0xFWD" (some "Fail - Reason: Already Verified")
      = ([.runVerify "0xPAY" [.str "0xHUB", .str "0xFWD"]], .ok ()) := by
  refine ⟨?_, ?_, ?_⟩
  · simp [collectionVerify]
  · rfl
  · simp [paymasterVerify]
    rfl

/-- Claim C6, amended. The paymaster `verify` normalizes a failure whose
message includes "Reason: Already Verified" to success and propagates every
other failure; the collection `verify` propagates every failure of the
external call, the already-verified one included. -/
theorem verify_already_verified_normalization
    (addr hub fwd msg : String) (hh : hub ≠ "") (hf : fwd ≠ "")
    (a2 name s : String) (c : Nat) (hsh u f2 : String)
    (ha2 : a2 ≠ "") (hs : s ≠ "") (hc : c ≠ 0) (hu : u ≠ "") (hf2 : f2 ≠ "")
    (hn : name ≠ "") (hhsh : hsh ≠ "") :
    (strIncludes msg "Reason: Already Verified" = true →
      paymasterVerify addr hub fwd (some msg)
        = ([.runVerify addr [.str hub, .str fwd]], .ok ()))
    ∧ (strIncludes msg "Reason: Already Verified" = false →
      paymasterVerify addr hub fwd (some msg)
        = ([.runVerify addr [.str hub, .str fwd]], .error msg))
    ∧ (paymasterVerify addr hub fwd none = ([.runVerify addr [.str hub, .str fwd]], .ok ()))
    ∧ (collectionVerify a2 name s c hsh u f2 (some msg)
        = ([.runVerify a2 [.str name, .str s, .num (c : Int), .str hsh, .str u, .str f2]],
           .error msg)) := by
  refine ⟨?_, ?_, ?_, ?_⟩
  · intro hm
    simp [paymasterVerify, hh, hf, hm]
  · intro hm
    simp [paymasterVerify, hh, hf, hm]
  · simp [paymasterVerify, hh, hf]
  · simp [collectionVerify, ha2, hs, hc, hu, hf2, hn, hhsh]

/-- Witness for the amended claim C6 on an already-verified message and on
an unrelated message. -/
theorem verify_already_verified_normalization_witness :
    (paymasterVerify "0xPAY" "0xHUB" "0xFWD" (some "Fail - Reason: Already Verified")
      = ([.runVerify "0xPAY" [.str "0xHUB", .str "0xFWD"]], .ok ()))
    ∧ (paymasterVerify "0xPAY" "0xHUB" "0xFWD" (some "boom")
      = ([.runVerify "0xPAY" [.str "0xHUB", .str "0xFWD"]], .error "boom"))
    ∧ (paymasterVerify "0xPAY" "0xHUB" "0xFWD" none
      = ([.runVerify "0xPAY" [.str "0xHUB", .str "0xFWD"]], .ok ()))
    ∧ (collectionVerify "0xC01" "Name" "SYM" 1000 "hash" "uri" "0xF" (some "boom")
      = ([.runVerify "0xC01"
            [.str "Name", .str "SYM", .num 1000, .str "hash", .str "uri", .str "0xF"]],
         .error "boom")) := by
  have h := verify_already_verified_normalization "0xPAY" "0xHUB" "0xFWD"
    "Fail - Reason: Already Verified" (by decide) (by decide)
    "0xC01" "Name" "SYM" 1000 "hash" "uri" "0xF"
    (by decide) (by decide) (by decide) (by decide) (by decide) (by decide) (by decide)
  have h2 := verify_already_verified_normalization "0xPAY" "0xHUB" "0xFWD"
    "boom" (by decide) (by decide)
    "0xC01" "Name" "SYM" 1000 "hash" "uri" "0xF"
    (by decide) (by decide) (by decide) (by decide) (by decide) (by decide) (by decide)
  exact ⟨h.1 rfl, h2.2.1 rfl, h.2.2.1, h2.2.2.2⟩

/-- Claim C8. Every deploy invocation with a missing required parameter
(paymaster: relay hub address, trusted forwarder address; collection:
symbol, supply cap, metadata URI) throws its configuration error with an
empty event trace — before any call on the chain-interaction provider —
and leaves the file store unchanged, so no record is written. -/
theorem missing_param_fails_fast :
    (∀ fwd da : String, paymasterDeploy da "" fwd = ([], .error "Relay hub address is required"))
    ∧ (∀ hub da : String, hub ≠ "" →
        paymasterDeploy da hub "" = ([], .error "GSN trusted forwarder address is required"))
    ∧ (∀ (st : Store) (n fwd da : String),
        deployPaymasterTask st n "" fwd da = ([], st, .error "Relay hub address is required"))
    ∧ (∀ (st : Store) (n cf da : String) (o : Nat → Option String)
        (name u : String) (c : Nat) (h : Option String) (p f : Option String),
        collectionDeploy st n cf da o ⟨name, "", c, u, h, p, f⟩
          = ([], st, .error "collectionSymbol is required"))
    ∧ (∀ (st : Store) (n cf da : String) (o : Nat → Option String)
        (name s u : String) (h : Option String) (p f : Option String), s ≠ "" →
        collectionDeploy st n cf da o ⟨name, s, 0, u, h, p, f⟩
          = ([], st, .error "collectionSupplyCap is required"))
    ∧ (∀ (st : Store) (n cf da : String) (o : Nat → Option String)
        (name s : String) (c : Nat) (h : Option String) (p f : Option String),
        s ≠ "" → c ≠ 0 →
        collectionDeploy st n cf da o ⟨name, s, c, "", h, p, f⟩
          = ([], st, .error "contractMetadataUri is required")) := by
  refine ⟨?_, ?_, ?_, ?_, ?_, ?_⟩
  · intro fwd da
    simp [paymasterDeploy]
  · intro hub da hh
    simp [paymasterDeploy, hh]
  · intro st n fwd da
    simp [deployPaymasterTask, paymasterDeploy]
  · intro st n cf da o name u c h p f
    simp [collectionDeploy]
  · intro st n cf da o name s u h p f hs
    simp [collectionDeploy, hs]
  · intro st n cf da o name s c h p f hs hc
    simp [collectionDeploy, hs, hc]

/-- Witness for claim C8: each missing parameter at concrete inputs. -/
theorem missing_param_fails_fast_witness :
    paymasterDeploy "0xPAY" "" "0xFWD" = ([], .error "Relay hub address is required")
    ∧ paymasterDeploy "0xPAY" "0xHUB" "" = ([], .error "GSN trusted forwarder address is required")
    ∧ deployPaymasterTask [] "mumbai" "" "0xFWD" "0xPAY"
      = ([], [], .error "Relay hub address is required")
    ∧ collectionDeploy [] "mumbai" "0xF" "0xC01" (fun _ => none)
        ⟨"Name", "", 1000, "uri", none, none, none⟩
      = ([], [], .error "collectionSymbol is required")
    ∧ collectionDeploy [] "mumbai" "0xF" "0xC01" (fun _ => none)
        ⟨"Name", "SYM", 0, "uri", none, none, none⟩
      = ([], [], .error "collectionSupplyCap is required")
    ∧ collectionDeploy [] "mumbai" "0xF" "0xC01" (fun _ => none)
        ⟨"Name", "SYM", 1000, "", none, none, none⟩
      = ([], [], .error "contractMetadataUri is required") :=
  ⟨missing_param_fails_fast.1 "0xFWD" "0xPAY",
   missing_param_fails_fast.2.1 "0xHUB" "0xPAY" (by decide),
   missing_param_fails_fast.2.2.1 [] "mumbai" "0xFWD" "0xPAY",
   missing_param_fails_fast.2.2.2.1 [] "mumbai" "0xF" "0xC01" (fun _ => none)
     "Name" "uri" 1000 none none none,
   missing_param_fails_fast.2.2.2.2.1 [] "mumbai" "0xF" "0xC01" (fun _ => none)
     "Name" "SYM" "uri" none none none (by decide),
   missing_param_fails_fast.2.2.2.2.2 [] "mumbai" "0xF" "0xC01" (fun _ => none)
     "Name" "SYM" 1000 none none none (by decide) (by decide)⟩

/-- Claim C9. Whatever the enable transaction does — including failing on
every invocation — the collection deploy's store effect is exactly the one
record write: the persisted record stays at its key unchanged, and the
whole event trace contains exactly one record write. The enable step can
never delete or modify the already-persisted record. -/
theorem enable_failure_leaves_record_intact
    (st : Store) (network cf da : String) (o : Nat → Option String)
    (name s : String) (c : Nat) (u : String) (h : Option String) (pm f : String)
    (hs : s ≠ "") (hc : c ≠ 0) (hu : u ≠ "") (hf : f ≠ "") :
    ((collectionDeploy st network cf da o ⟨name, s, c, u, h, some pm, some f⟩).2.1
      = st.write (collectionGetPath network s da)
          (collectionRecordJson da name s c (h.getD "") u f))
    ∧ ((collectionDeploy st network cf da o ⟨name, s, c, u, h, some pm, some f⟩).2.1.read
        (collectionGetPath network s da)
      = some (collectionRecordJson da name s c (h.getD "") u f))
    ∧ ((collectionDeploy st network cf da o ⟨name, s, c, u, h, some pm, some f⟩).1.countP
        (fun e => match e with | .writeRecord _ _ => true | _ => false) = 1) := by
  rw [collectionDeploy_spec st network cf da o name s c u h pm f hs hc hu hf]
  refine ⟨rfl, store_read_write_self _ _ _, ?_⟩
  simp [List.countP_cons, enableLoop_no_writes]

/-- Witness for claim C9 at an enable transaction that fails on every
invocation. -/
theorem enable_failure_leaves_record_intact_witness :
    ((collectionDeploy [] "mumbai" "0xF" "0xC01" (fun _ => some "enable reverted")
        ⟨"Name", "SYM", 1000, "uri", none, some "0xP", some "0xFWD"⟩).2.1.read
        (collectionGetPath "mumbai" "SYM" "0xC01")
      = some (collectionRecordJson "0xC01" "Name" "SYM" 1000 "" "uri" "0xFWD"))
    ∧ ((collectionDeploy [] "mumbai" "0xF" "0xC01" (fun _ => some "enable reverted")
        ⟨"Name", "SYM", 1000, "uri", none, some "0xP", some "0xFWD"⟩).1.countP
        (fun e => match e with | .writeRecord _ _ => true | _ => false) = 1) :=
  ⟨(enable_failure_leaves_record_intact [] "mumbai" "0xF" "0xC01"
      (fun _ => some "enable reverted") "Name" "SYM" 1000 "uri" none "0xP" "0xFWD"
      (by decide) (by decide) (by decide) (by decide)).2.1,
   (enable_failure_leaves_record_intact [] "mumbai" "0xF" "0xC01"
      (fun _ => some "enable reverted") "Name" "SYM" 1000 "uri" none "0xP" "0xFWD"
      (by decide) (by decide) (by decide) (by decide)).2.2⟩

/-- Claim C10. A collection deployed without a metadataProofHash records the
empty string both as the descriptive field and as element 4 of the
constructor-argument tuple, and every later collection `verify` attempt on
that record throws "metadataProofHash is required" with an empty trace —
before the external verification call — whatever the external call would
have answered: such a record can never be verified via that operation. -/
theorem missing_proof_hash_blocks_verification
    (st : Store) (n cf da : String) (o : Nat → Option String)
    (name s : String) (c : Nat) (u pm f : String)
    (hs : s ≠ "") (hc : c ≠ 0) (hu : u ≠ "") (hf : f ≠ "")
    (hda : da ≠ "") (hname : name ≠ "") :
    ((collectionDeploy st n cf da o ⟨name, s, c, u, none, some pm, some f⟩).2.1.read
        (collectionGetPath n s da)
      = some (collectionRecordJson da name s c "" u f))
    ∧ (collectionRecordJson da name s c "" u f).field "metadataProofHash" = some (.str "")
    ∧ (collectionRecordJson da name s c "" u f).field "constructorArguments"
      = some (.arr [.str name, .str s, .num (c : Int), .str "", .str u, .str f])
    ∧ (∀ runOutcome : Option String,
        collectionVerify da name s c "" u f runOutcome
          = ([], .error "metadataProofHash is required")) := by
  refine ⟨?_, ?_, ?_, ?_⟩
  · rw [collectionDeploy_spec st n cf da o name s c u none pm f hs hc hu hf]
    exact store_read_write_self _ _ _
  · simp [collectionRecordJson, Json.field, List.lookup]
  · simp [collectionRecordJson, Json.field, List.lookup]
  · intro runOutcome
    simp [collectionVerify, hda, hs, hc, hu, hf, hname]

/-- Witness for claim C10 at a concrete hash-less deployment, with both a
succeeding and a failing external verifier. -/
theorem missing_proof_hash_blocks_verification_witness :
    ((collectionDeploy [] "mumbai" "0xF" "0xC01" (fun _ => none)
        ⟨"Name", "SYM", 1000, "uri", none, some "0xP", some "0xFWD"⟩).2.1.read
        (collectionGetPath "mumbai" "SYM" "0xC01")
      = some (collectionRecordJson "0xC01" "Name" "SYM" 1000 "" "uri" "0xFWD"))
    ∧ (collectionRecordJson "0xC01" "Name" "SYM" 1000 "" "uri" "0xFWD").field
        "metadataProofHash" = some (.str "")
    ∧ (collectionRecordJson "0xC01" "Name" "SYM" 1000 "" "uri" "0xFWD").field
        "constructorArguments"
      = some (.arr [.str "Name", .str "SYM", .num 1000, .str "", .str "uri", .str "0xFWD"])
    ∧ collectionVerify "0xC01" "Name" "SYM" 1000 "" "uri" "0xFWD" none
      = ([], .error "metadataProofHash is required")
    ∧ collectionVerify "0xC01" "Name" "SYM" 1000 "" "uri" "0xFWD" (some "boom")
      = ([], .error "metadataProofHash is required") := by
  have h := missing_proof_hash_blocks_verification [] "mumbai" "0xF" "0xC01" (fun _ => none)
    "Name" "SYM" 1000 "uri" "0xP" "0xFWD"
    (by decide) (by decide) (by decide) (by decide) (by decide) (by decide)
  exact ⟨h.1, h.2.1, h.2.2.1, h.2.2.2 none, h.2.2.2 (some "boom")⟩

end GSN
